import Mathlib

/-!
Verification of the storage helper in src/StorageAPI.ts: a wrapper class
over the browser key-value storage areas (durable and session-scoped)
with optional time-based expiration, plus the SaveUserSession bootstrap
routine.

Modelling conventions:

* JavaScript runtime values relevant to this API are modelled by `JSValue`
  (JSON-representable data plus the undefined value).  Date objects appear
  only through getTime(), so instants are modelled as `Int`
  epoch-milliseconds.
* The two storage backends hold, per key, the parsed JSON document of the
  stored text: JSON.parse after JSON.stringify is the identity on JSON
  data values, and every write of this API stores JSON.stringify of some
  value, so keeping the `JSValue` itself is exact for all states the API
  can produce.  (JSON.stringify never produces the empty string on data
  values, so the falsy-string guard in GetItem coincides with key absence,
  modelled by `Option`.)
* The `browser` flag from the environment module is passed as an explicit
  boolean parameter, as is the current instant for each Date construction
  and the module-load instant at which the Date inside the module-level
  constant DefaultExpiration is evaluated.
* The external collaborator generateRandomToken is passed as an abstract
  function `gen : Nat → String`.
* Mutation of a backend is modelled by explicit state passing on
  `Backends`.
-/

/-- JavaScript runtime values as relevant to this API: JSON-representable
data plus the undefined value. -/
inductive JSValue where
  | undefined : JSValue
  | null : JSValue
  | bool (b : Bool) : JSValue
  | num (n : Int) : JSValue
  | str (s : String) : JSValue
  | arr (elems : List JSValue) : JSValue
  | obj (fields : List (String × JSValue)) : JSValue

/-- JavaScript truthiness of a value (undefined, null, false, 0 and the
empty string are falsy; objects and arrays are truthy). -/
def truthy : JSValue → Bool
  | .undefined => false
  | .null => false
  | .bool b => b
  | .num n => n != 0
  | .str s => s != ""
  | .arr _ => true
  | .obj _ => true

/-- First binding of a field name in the field list of a JavaScript object
literal. -/
def lookupField (fields : List (String × JSValue)) (f : String) : Option JSValue :=
  match fields with
  | [] => none
  | (g, v) :: rest => if g = f then some v else lookupField rest f

/-- JavaScript property access `v.f`: `none` models the TypeError thrown
when `v` is null or undefined; a missing property on any other value reads
as undefined. -/
def getField : JSValue → String → Option JSValue
  | .undefined, _ => none
  | .null, _ => none
  | .obj fields, f => some ((lookupField fields f).getD .undefined)
  | _, _ => some .undefined

/-- JavaScript optional chaining `v?.f`: undefined when `v` is nullish,
ordinary property access otherwise (never throws). -/
def optChain (v : JSValue) (f : String) : JSValue :=
  match v with
  | .undefined => .undefined
  | .null => .undefined
  | _ => (getField v f).getD .undefined

/-- JavaScript numeric comparison `n > v` as used in GetItem, where the
decoded expires field of every entry written by this API is a number.
(Comparisons against non-numeric values would go through JS coercion; no
entry this API writes triggers that, so they are modelled as false.) -/
def jsGt (n : Int) (v : JSValue) : Bool :=
  match v with
  | .num e => decide (e < n)
  | _ => false

/-- One storage backend: parsed JSON document per key (see module header). -/
def Store : Type := String → Option JSValue

/-- Models `Storage.setItem(key, text)`: bind `key` to the (parsed)
document. -/
def Store.setItem (st : Store) (key : String) (v : JSValue) : Store :=
  fun k => if k = key then some v else st k

/-- Models `Storage.removeItem(key)`. -/
def Store.removeItem (st : Store) (key : String) : Store :=
  fun k => if k = key then none else st k

/-- The pair of browser storage areas. -/
structure Backends where
  localArea : Store
  sessionArea : Store

/-- Source: `declare type StorageType = "local" | "session"`. -/
inductive StorageType where
  | localType : StorageType
  | sessionType : StorageType

/-- Source: `declare type ExpireProps = \x7b creationDate: Date, expiresIn:
number \x7d`; the Date is represented by its getTime() epoch-millisecond
value. -/
structure ExpireProps where
  creationDate : Int
  expiresIn : Int

/-- Source: `declare type Item<T> = \x7b value: T \x7d`. -/
structure Item where
  value : JSValue

/-- Source: `declare type ItemWithExpiry<T> = \x7b value: T, expires:
ExpireProps \x7d`. -/
structure ItemWithExpiry where
  value : JSValue
  expires : ExpireProps

/-- Source: `export const DefaultExpiration = \x7b creationDate: new
Date(), expiresIn: 3600 * (24 * 7) \x7d` — the Date is constructed once,
when the module is initialised, at instant `moduleLoadTime`. -/
def DefaultExpiration (moduleLoadTime : Int) : ExpireProps :=
  { creationDate := moduleLoadTime, expiresIn := 3600 * (24 * 7) }

/-- The StorageAPI class: its only state is the backend selector. -/
structure StorageAPI where
  storage : StorageType

namespace StorageAPI

/-- Source: `constructor(storageType?) \x7b this.storage = storageType ??
"local" \x7d`. -/
def make (storageType : Option StorageType) : StorageAPI :=
  { storage := storageType.getD .localType }

/-- Source: `this.storage === "local" ? localStorage : sessionStorage` —
read side. -/
def selectStore (self : StorageAPI) (b : Backends) : Store :=
  match self.storage with
  | .localType => b.localArea
  | .sessionType => b.sessionArea

/-- Write back the selected storage area after a mutation. -/
def updateStore (self : StorageAPI) (b : Backends) (st : Store) : Backends :=
  match self.storage with
  | .localType => { b with localArea := st }
  | .sessionType => { b with sessionArea := st }

/-- Method SaveItemWithExpiration: stores the serialization of
`\x7b value: item.value, expires: creationDate.getTime() + expiresIn \x7d`
under `key`; no-op outside a browsing context.  Note the source adds
`expiresIn` to the millisecond clock value without any scaling. -/
def SaveItemWithExpiration (browser : Bool) (self : StorageAPI) (key : String)
    (item : ItemWithExpiry) (b : Backends) : Backends :=
  if !browser then b
  else
    let storage := self.selectStore b
    let creationDate := item.expires.creationDate
    let expiresIn := item.expires.expiresIn
    let kvp : JSValue := .obj [("value", item.value), ("expires", .num (creationDate + expiresIn))]
    self.updateStore b (storage.setItem key kvp)

/-- Method SaveItem: stores `JSON.stringify(item.value)` — the bare value,
not the `\x7b value \x7d` wrapper — under `key`; no-op outside a browsing
context. -/
def SaveItem (browser : Bool) (self : StorageAPI) (key : String)
    (item : Item) (b : Backends) : Backends :=
  if !browser then b
  else
    let storage := self.selectStore b
    self.updateStore b (storage.setItem key item.value)

/-- Method GetItem at current instant `now`.  The first component of the
result is `some r` for a normal return of the JS value `r` (`.null` is the
not-found sentinel; `.undefined` arises from reading `item.value` off a
non-object) and `none` for a thrown TypeError; the second component is the
resulting backend state (eviction side effect). -/
def GetItem (browser : Bool) (self : StorageAPI) (key : String) (now : Int)
    (b : Backends) : Option JSValue × Backends :=
  if !browser then (some .null, b)
  else
    let storage := self.selectStore b
    match storage key with
    | none => (some .null, b)
    | some item =>
      if truthy (optChain item "expires") then
        if jsGt now (optChain item "expires") then
          (some .null, self.updateStore b (storage.removeItem key))
        else
          (getField item "value", b)
      else
        (getField item "value", b)

/-- Method Contains: `storage.getItem(key) !== null`; the source has no
browser guard here. -/
def Contains (self : StorageAPI) (key : String) (b : Backends) : Bool :=
  (self.selectStore b key).isSome

/-- Method Clear: `storage.clear(); return true`. -/
def Clear (self : StorageAPI) (b : Backends) : Bool × Backends :=
  (true, self.updateStore b (fun _ => none))

end StorageAPI

/-- The caller-facing user record consumed by SaveUserSession. -/
structure User where
  firstName : String
  lastName : String
  username : String
  token : String

/-- Function SaveUserSession: writes the five identity fields through a
durable ("local") wrapper with the module-level DefaultExpiration
descriptor, except that the validator goes through a fresh session-scoped
wrapper without expiration when `rememberMe` is false.  `gen` is the
external generateRandomToken collaborator. -/
def SaveUserSession (browser : Bool) (moduleLoadTime : Int) (gen : Nat → String)
    (user : User) (rememberMe : Bool) (b : Backends) : Backends :=
  let storage := StorageAPI.make none
  let tokens : String × String := (gen 12, gen 32)
  let b1 := storage.SaveItemWithExpiration browser "name"
    { value := .str (user.firstName ++ " " ++ user.lastName),
      expires := DefaultExpiration moduleLoadTime } b
  let b2 := storage.SaveItemWithExpiration browser "username"
    { value := .str user.username, expires := DefaultExpiration moduleLoadTime } b1
  let b3 := storage.SaveItemWithExpiration browser "token"
    { value := .str user.token, expires := DefaultExpiration moduleLoadTime } b2
  let b4 := storage.SaveItemWithExpiration browser "selector"
    { value := .str tokens.1, expires := DefaultExpiration moduleLoadTime } b3
  if rememberMe then
    storage.SaveItemWithExpiration browser "validator"
      { value := .str tokens.2, expires := DefaultExpiration moduleLoadTime } b4
  else
    (StorageAPI.make (some .sessionType)).SaveItem browser "validator"
      { value := .str tokens.2 } b4

/-- A backend pair with no entries, used by concrete test states. -/
def emptyBackends : Backends :=
  { localArea := fun _ => none, sessionArea := fun _ => none }

/-- A concrete token generator honouring the requested length, used by
concrete test states. -/
def genW : Nat → String :=
  fun n => String.mk (List.replicate n 'x')

/-- A concrete user record, used by concrete test states. -/
def userW : User :=
  { firstName := "Ada", lastName := "Lovelace", username := "ada", token := "tok123" }

/-- Reading the selected area right after writing it back yields the
written area. -/
theorem selectStore_updateStore (self : StorageAPI) (b : Backends) (st : Store) :
    self.selectStore (self.updateStore b st) = st := by
  cases self with
  | mk t => cases t <;> rfl

/-- C1: the claim states that SaveItemWithExpiration stores
creationInstant + expiresInSeconds * 1000 as the absolute expiration.
The source (line 51) computes `creationDate.getTime() + expiresIn` with no
scaling: saving at epoch instant 0 with expiresIn = 604800 (the one-week
value, in seconds) stores expires = 604800, which differs from the claimed
0 + 604800 * 1000.  This contradicts the source doc comment calling the
descriptor a one-week default expiration. -/
theorem C1_expires_not_scaled_to_millis :
    (StorageAPI.make none).selectStore
        ((StorageAPI.make none).SaveItemWithExpiration true "k"
          { value := .num 42, expires := { creationDate := 0, expiresIn := 604800 } }
          emptyBackends) "k"
      = some (.obj [("value", .num 42), ("expires", .num 604800)]) ∧
    (604800 : Int) ≠ 0 + 604800 * 1000 :=
  ⟨rfl, by decide⟩

/-- C2: the claim states that Save then Get round-trips any plain value.
The source breaks this: SaveItem (line 71) writes
`JSON.stringify(item.value)` — the bare value — while GetItem (lines
93-105) decodes the stored text as the record and returns its `value`
property.  Saving the number 42 and reading it back yields the JavaScript
undefined value (property access `.value` on the number 42), not 42. -/
theorem C2_roundtrip_broken :
    ((StorageAPI.make none).GetItem true "k" 0
        ((StorageAPI.make none).SaveItem true "k" { value := .num 42 } emptyBackends)).1
      = some .undefined ∧
    some JSValue.undefined ≠ some (JSValue.num 42) := by
  refine ⟨rfl, fun h => ?_⟩
  exact JSValue.noConfusion (Option.some.inj h)

/-- C6: Contains reports raw presence only — it is exactly the
presence test of the selected backend, with no expiration check and no
clock input, and it returns true immediately after either save operation
for every expiration descriptor, including ones whose absolute instant
has already elapsed (the operation never consults a clock). -/
theorem C6_contains_ignores_expiration (self : StorageAPI) (key : String)
    (v : JSValue) (creationDate expiresIn : Int) (item : Item) (b : Backends) :
    self.Contains key b = (self.selectStore b key).isSome ∧
    self.Contains key
        (self.SaveItemWithExpiration true key
          { value := v, expires := { creationDate := creationDate, expiresIn := expiresIn } } b)
      = true ∧
    self.Contains key (self.SaveItem true key item b) = true := by
  refine ⟨rfl, ?_, ?_⟩
  · simp [StorageAPI.SaveItemWithExpiration, StorageAPI.Contains, selectStore_updateStore,
      Store.setItem]
  · simp [StorageAPI.SaveItem, StorageAPI.Contains, selectStore_updateStore, Store.setItem]

/-- C7: outside a browsing context, both save operations return with the
backend state unchanged and GetItem returns the null sentinel with the
state unchanged, for every instance, key, item and state; no error is
produced. -/
theorem C7_non_browser_noop (self : StorageAPI) (key : String) (item : Item)
    (itemE : ItemWithExpiry) (now : Int) (b : Backends) :
    self.SaveItem false key item b = b ∧
    self.SaveItemWithExpiration false key itemE b = b ∧
    self.GetItem false key now b = (some .null, b) :=
  ⟨rfl, rfl, rfl⟩

/-- C8: Clear always reports success, and afterwards every key of the
selected backend reports false from Contains and the null sentinel from
GetItem. -/
theorem C8_clear_unconditional_success (self : StorageAPI) (key : String)
    (now : Int) (b : Backends) :
    (self.Clear b).1 = true ∧
    self.Contains key (self.Clear b).2 = false ∧
    (self.GetItem true key now (self.Clear b).2).1 = some .null := by
  refine ⟨rfl, ?_, ?_⟩
  · simp [StorageAPI.Clear, StorageAPI.Contains, selectStore_updateStore]
  · simp [StorageAPI.Clear, StorageAPI.GetItem, selectStore_updateStore]

/-- C3 counterexample: the claim as stated fails on an expiring entry whose
stored absolute timestamp is 0.  Saving with creationDate 0 and expiresIn 0
stores expires = 0, which is strictly in the past at read instant 1, yet
GetItem returns the stored value (the truthiness guard on line 96 skips the
expiration branch for a falsy 0) and the entry survives: Contains still
reports true. -/
theorem C3_zero_timestamp_not_evicted :
    (0 : Int) < 1 ∧
    ((StorageAPI.make none).GetItem true "k" 1
        ((StorageAPI.make none).SaveItemWithExpiration true "k"
          { value := .num 7, expires := { creationDate := 0, expiresIn := 0 } }
          emptyBackends)).1
      = some (.num 7) ∧
    (StorageAPI.make none).Contains "k"
        (((StorageAPI.make none).GetItem true "k" 1
          ((StorageAPI.make none).SaveItemWithExpiration true "k"
            { value := .num 7, expires := { creationDate := 0, expiresIn := 0 } }
            emptyBackends)).2)
      = true :=
  ⟨by decide, rfl, rfl⟩

/-- C3 (amended): for every key holding an expiring entry whose stored
absolute timestamp is nonzero (truthy) and strictly in the past at read
time, GetItem returns the null sentinel and removes the key, so Contains
on the resulting backend state reports false. -/
theorem C3_expired_entry_evicted (self : StorageAPI) (key : String) (v : JSValue)
    (e now : Int) (b : Backends)
    (hstore : self.selectStore b key = some (.obj [("value", v), ("expires", .num e)]))
    (hne : e ≠ 0) (hpast : e < now) :
    (self.GetItem true key now b).1 = some .null ∧
    self.Contains key (self.GetItem true key now b).2 = false := by
  refine ⟨?_, ?_⟩ <;>
    simp [StorageAPI.GetItem, StorageAPI.Contains, hstore, optChain, getField, lookupField,
      truthy, jsGt, hne, hpast, selectStore_updateStore, Store.removeItem]

/-- Witness for C3 (amended): an entry saved with creationDate 2 and
expiresIn 3 (stored expires = 5) read at instant 10 comes back as the null
sentinel and is gone from the backend. -/
theorem C3_expired_entry_evicted_witness :
    ((StorageAPI.make none).GetItem true "k" 10
        ((StorageAPI.make none).SaveItemWithExpiration true "k"
          { value := .num 7, expires := { creationDate := 2, expiresIn := 3 } }
          emptyBackends)).1
      = some .null ∧
    (StorageAPI.make none).Contains "k"
        (((StorageAPI.make none).GetItem true "k" 10
          ((StorageAPI.make none).SaveItemWithExpiration true "k"
            { value := .num 7, expires := { creationDate := 2, expiresIn := 3 } }
            emptyBackends)).2)
      = false :=
  C3_expired_entry_evicted (StorageAPI.make none) "k" (.num 7) 5 10 _ (by rfl) (by decide)
    (by decide)

/-- C9: the expiration comparison is strict.  For every stored expiring
entry and every read instant at or before the stored timestamp — in
particular exactly at it — GetItem returns the stored value and leaves the
backend state unchanged; eviction can only happen when the current instant
strictly exceeds the stored timestamp. -/
theorem C9_expiry_comparison_strict (self : StorageAPI) (key : String) (v : JSValue)
    (e now : Int) (b : Backends)
    (hstore : self.selectStore b key = some (.obj [("value", v), ("expires", .num e)]))
    (hle : now ≤ e) :
    self.GetItem true key now b = (some v, b) := by
  have hngt : ¬ (e < now) := not_lt.mpr hle
  by_cases h0 : e = 0
  · subst h0
    simp [StorageAPI.GetItem, hstore, optChain, getField, lookupField, truthy, jsGt]
  · simp [StorageAPI.GetItem, hstore, optChain, getField, lookupField, truthy, jsGt, h0, hngt]

/-- Witness for C9: an entry with stored expires = 5 read exactly at
instant 5 returns its value and evicts nothing. -/
theorem C9_expiry_comparison_strict_witness :
    (StorageAPI.make none).GetItem true "k" 5
        ((StorageAPI.make none).SaveItemWithExpiration true "k"
          { value := .num 1, expires := { creationDate := 2, expiresIn := 3 } }
          emptyBackends)
      = (some (.num 1),
          (StorageAPI.make none).SaveItemWithExpiration true "k"
            { value := .num 1, expires := { creationDate := 2, expiresIn := 3 } }
            emptyBackends) :=
  C9_expiry_comparison_strict (StorageAPI.make none) "k" (.num 1) 5 5 _ (by rfl) (by decide)

/-- C10: GetItem tests the decoded expires field for truthiness, not
presence.  For every stored entry whose expires field is falsy — 0 in
particular — GetItem returns the stored value at every read instant and
leaves the backend state unchanged: the entry is never evicted. -/
theorem C10_falsy_expires_nonexpiring (self : StorageAPI) (key : String)
    (v ex : JSValue) (now : Int) (b : Backends)
    (hstore : self.selectStore b key = some (.obj [("value", v), ("expires", ex)]))
    (hfalsy : truthy ex = false) :
    self.GetItem true key now b = (some v, b) := by
  simp [StorageAPI.GetItem, hstore, optChain, getField, lookupField, hfalsy]

/-- Witness for C10: an entry with expires = 0 read at the large instant
123456789 still returns its value with no eviction. -/
theorem C10_falsy_expires_nonexpiring_witness :
    (StorageAPI.make none).GetItem true "k" 123456789
        ((StorageAPI.make none).SaveItemWithExpiration true "k"
          { value := .num 9, expires := { creationDate := 0, expiresIn := 0 } }
          emptyBackends)
      = (some (.num 9),
          (StorageAPI.make none).SaveItemWithExpiration true "k"
            { value := .num 9, expires := { creationDate := 0, expiresIn := 0 } }
            emptyBackends) :=
  C10_falsy_expires_nonexpiring (StorageAPI.make none) "k" (.num 9) (.num 0) 123456789 _
    (by rfl) (by rfl)

/-- C4 counterexample: the claim says every SaveUserSession field write
uses creationInstant = now at the time of the call, taken per field.  In
the source, DefaultExpiration is a module-level constant whose Date is
constructed once at module initialisation, so with the module loaded at
instant 0 a call made at instant 5 still uses a descriptor with
creationDate 0 (not 5), and the stored expires of the name entry is
0 + 604800 regardless of any call or per-field instant. -/
theorem C4_creation_instant_fixed_at_module_load :
    (DefaultExpiration 0).expiresIn = 604800 ∧
    (DefaultExpiration 0).creationDate = 0 ∧
    (0 : Int) ≠ 5 ∧
    (SaveUserSession true 0 genW userW true emptyBackends).localArea "name"
      = some (.obj [("value", .str "Ada Lovelace"), ("expires", .num 604800)]) :=
  ⟨rfl, rfl, by decide, rfl⟩

/-- C4 (amended): every SaveUserSession field write uses the module-level
DefaultExpiration descriptor, with expiresIn = 604800 and creationDate
equal to the single module-load instant — shared by all five fields and
all calls, not taken per field at call time — so each stored entry carries
expires = moduleLoadTime + 604800. -/
theorem C4_amended_shared_descriptor (moduleLoadTime : Int) (gen : Nat → String)
    (user : User) (b : Backends) :
    (DefaultExpiration moduleLoadTime).expiresIn = 604800 ∧
    (DefaultExpiration moduleLoadTime).creationDate = moduleLoadTime ∧
    (SaveUserSession true moduleLoadTime gen user true b).localArea "name"
      = some (.obj [("value", .str (user.firstName ++ " " ++ user.lastName)),
          ("expires", .num (moduleLoadTime + 604800))]) ∧
    (SaveUserSession true moduleLoadTime gen user true b).localArea "username"
      = some (.obj [("value", .str user.username),
          ("expires", .num (moduleLoadTime + 604800))]) ∧
    (SaveUserSession true moduleLoadTime gen user true b).localArea "token"
      = some (.obj [("value", .str user.token),
          ("expires", .num (moduleLoadTime + 604800))]) ∧
    (SaveUserSession true moduleLoadTime gen user true b).localArea "selector"
      = some (.obj [("value", .str (gen 12)),
          ("expires", .num (moduleLoadTime + 604800))]) ∧
    (SaveUserSession true moduleLoadTime gen user true b).localArea "validator"
      = some (.obj [("value", .str (gen 32)),
          ("expires", .num (moduleLoadTime + 604800))]) := by
  refine ⟨rfl, rfl, ?_, ?_, ?_, ?_, ?_⟩ <;> rfl

/-- C5: SaveUserSession writes durable-backend entries under name (first
and last name joined by a space), username, token (the pre-existing auth
token from the user record) and selector (a freshly generated 12-character
token), each with the default expiration descriptor; the validator (a
freshly generated 32-character token) goes to the durable backend with the
same expiration when rememberMe is true, and to the session-scoped backend
as a plain non-expiring save (no expires field stored) when rememberMe is
false, leaving the durable validator slot untouched.  The hypotheses are
the contract of the external token generator. -/
theorem C5_session_bootstrap_layout (moduleLoadTime : Int) (gen : Nat → String)
    (user : User) (b : Backends)
    (h12 : (gen 12).length = 12) (h32 : (gen 32).length = 32) :
    ((SaveUserSession true moduleLoadTime gen user true b).localArea "name"
        = some (.obj [("value", .str (user.firstName ++ " " ++ user.lastName)),
            ("expires", .num (moduleLoadTime + 604800))]) ∧
      (SaveUserSession true moduleLoadTime gen user true b).localArea "username"
        = some (.obj [("value", .str user.username),
            ("expires", .num (moduleLoadTime + 604800))]) ∧
      (SaveUserSession true moduleLoadTime gen user true b).localArea "token"
        = some (.obj [("value", .str user.token),
            ("expires", .num (moduleLoadTime + 604800))]) ∧
      (SaveUserSession true moduleLoadTime gen user true b).localArea "selector"
        = some (.obj [("value", .str (gen 12)),
            ("expires", .num (moduleLoadTime + 604800))]) ∧
      (gen 12).length = 12 ∧
      (SaveUserSession true moduleLoadTime gen user true b).localArea "validator"
        = some (.obj [("value", .str (gen 32)),
            ("expires", .num (moduleLoadTime + 604800))]) ∧
      (gen 32).length = 32 ∧
      (SaveUserSession true moduleLoadTime gen user true b).sessionArea = b.sessionArea) ∧
    ((SaveUserSession true moduleLoadTime gen user false b).localArea "name"
        = some (.obj [("value", .str (user.firstName ++ " " ++ user.lastName)),
            ("expires", .num (moduleLoadTime + 604800))]) ∧
      (SaveUserSession true moduleLoadTime gen user false b).localArea "username"
        = some (.obj [("value", .str user.username),
            ("expires", .num (moduleLoadTime + 604800))]) ∧
      (SaveUserSession true moduleLoadTime gen user false b).localArea "token"
        = some (.obj [("value", .str user.token),
            ("expires", .num (moduleLoadTime + 604800))]) ∧
      (SaveUserSession true moduleLoadTime gen user false b).localArea "selector"
        = some (.obj [("value", .str (gen 12)),
            ("expires", .num (moduleLoadTime + 604800))]) ∧
      (SaveUserSession true moduleLoadTime gen user false b).sessionArea "validator"
        = some (.str (gen 32)) ∧
      (gen 32).length = 32 ∧
      (SaveUserSession true moduleLoadTime gen user false b).localArea "validator"
        = b.localArea "validator") := by
  exact ⟨⟨rfl, rfl, rfl, rfl, h12, rfl, h32, rfl⟩, rfl, rfl, rfl, rfl, rfl, h32, rfl⟩

/-- Witness for C5: the bootstrap scenario with the concrete generator and
user record at module-load instant 0 on empty backends, for both values of
the rememberMe flag. -/
theorem C5_session_bootstrap_layout_witness :
    ((SaveUserSession true 0 genW userW true emptyBackends).localArea "name"
        = some (.obj [("value", .str (userW.firstName ++ " " ++ userW.lastName)),
            ("expires", .num (0 + 604800))]) ∧
      (SaveUserSession true 0 genW userW true emptyBackends).localArea "username"
        = some (.obj [("value", .str userW.username),
            ("expires", .num (0 + 604800))]) ∧
      (SaveUserSession true 0 genW userW true emptyBackends).localArea "token"
        = some (.obj [("value", .str userW.token),
            ("expires", .num (0 + 604800))]) ∧
      (SaveUserSession true 0 genW userW true emptyBackends).localArea "selector"
        = some (.obj [("value", .str (genW 12)),
            ("expires", .num (0 + 604800))]) ∧
      (genW 12).length = 12 ∧
      (SaveUserSession true 0 genW userW true emptyBackends).localArea "validator"
        = some (.obj [("value", .str (genW 32)),
            ("expires", .num (0 + 604800))]) ∧
      (genW 32).length = 32 ∧
      (SaveUserSession true 0 genW userW true emptyBackends).sessionArea
        = emptyBackends.sessionArea) ∧
    ((SaveUserSession true 0 genW userW false emptyBackends).localArea "name"
        = some (.obj [("value", .str (userW.firstName ++ " " ++ userW.lastName)),
            ("expires", .num (0 + 604800))]) ∧
      (SaveUserSession true 0 genW userW false emptyBackends).localArea "username"
        = some (.obj [("value", .str userW.username),
            ("expires", .num (0 + 604800))]) ∧
      (SaveUserSession true 0 genW userW false emptyBackends).localArea "token"
        = some (.obj [("value", .str userW.token),
            ("expires", .num (0 + 604800))]) ∧
      (SaveUserSession true 0 genW userW false emptyBackends).localArea "selector"
        = some (.obj [("value", .str (genW 12)),
            ("expires", .num (0 + 604800))]) ∧
      (SaveUserSession true 0 genW userW false emptyBackends).sessionArea "validator"
        = some (.str (genW 32)) ∧
      (genW 32).length = 32 ∧
      (SaveUserSession true 0 genW userW false emptyBackends).localArea "validator"
        = emptyBackends.localArea "validator") :=
  C5_session_bootstrap_layout 0 genW userW emptyBackends (by rfl) (by rfl)
